import Mathlib

/-!
Verification of `soniox/soniox-pipecat-voicebot` (`src/server/bot.py`) against its
natural-language specification.

The shallow embedding below translates the repository's pure logic into Lean:

* `Frame` models the closed set of pipecat frame variants the bot's own code
  inspects or constructs (`BotStartedSpeakingFrame`, `BotStoppedSpeakingFrame`,
  `OutputImageRawFrame`, `SpriteFrame`, `TTSSpeakFrame`, the context frame
  produced by `context_aggregator.user().get_context_frame()`, and an opaque
  `other` variant for every frame kind the bot code does not inspect).
  Images are abstracted by their load index (0..24 for `assets/robot01.png` ..
  `assets/robot025.png`); `bot.py` only moves the bytes around, never reads them.
* `TalkingAnimation` is the stateful stage of `bot.py` (lines 87-117); its
  `process_frame` is modelled as a pure state-and-output function: stateful
  Python becomes explicit state passing, and each `await self.push_frame(...)`
  becomes appending an emission to the output trace, in program order.
* The three decorated event handlers and the `fetch_weather_from_api` tool
  function are straight-line effectful code; each is modelled by the ordered
  list of externally visible actions its body performs.
-/

/-- Direction of frame flow in the pipeline (`pipecat.processors.frame_processor.FrameDirection`). -/
inductive FrameDirection where
  | downstream
  | upstream
deriving DecidableEq, Repr

/-- The frame variants `bot.py` constructs or dispatches on.  Frames the bot code
never inspects are collapsed into `other`, tagged so distinct foreign frames
stay distinct. -/
inductive Frame where
  | botStartedSpeaking
  | botStoppedSpeaking
  | outputImageRaw (image : Nat)
  | sprite (images : List Nat)
  | ttsSpeak (text : String)
  | contextSnapshot
  | other (tag : Nat)
deriving DecidableEq, Repr

/-- The 25 sprite images loaded by the module-level loop
`for i in range(1, 26): ... sprites.append(OutputImageRawFrame(...))`,
abstracted by load index. -/
def loadedSprites : List Nat := List.range 25

/-- `flipped = sprites[::-1]` (bot.py line 77). -/
def flipped : List Nat := loadedSprites.reverse

/-- `sprites.extend(flipped)` (bot.py line 78): the final sprite list. -/
def sprites : List Nat := loadedSprites ++ flipped

/-- `quiet_frame = sprites[0]` (bot.py line 81): static frame shown while listening. -/
def quiet_frame : Frame := Frame.outputImageRaw (sprites.headI)

/-- `talking_frame = SpriteFrame(images=sprites)` (bot.py line 82): the looping
animation shown while the bot talks. -/
def talking_frame : Frame := Frame.sprite sprites

/-- State of the `TalkingAnimation` frame processor: the `_is_talking` flag. -/
structure TalkingAnimation where
  is_talking : Bool
deriving DecidableEq, Repr

/-- `TalkingAnimation.__init__` (bot.py lines 94-96): `self._is_talking = False`. -/
def TalkingAnimation.init : TalkingAnimation := { is_talking := false }

/-- `TalkingAnimation.process_frame` (bot.py lines 98-117), as a pure function from
state, frame and direction to the new state and the ordered list of emissions.
`self.push_frame(x)` with no direction argument uses pipecat's default
direction, downstream; the final `self.push_frame(frame, direction)` forwards
the incoming frame in its incoming direction. -/
def TalkingAnimation.process_frame (s : TalkingAnimation) (frame : Frame)
    (direction : FrameDirection) : TalkingAnimation × List (Frame × FrameDirection) :=
  let step : TalkingAnimation × List (Frame × FrameDirection) :=
    match frame with
    | Frame.botStartedSpeaking =>
        if s.is_talking then (s, [])
        else ({ is_talking := true }, [(talking_frame, FrameDirection.downstream)])
    | Frame.botStoppedSpeaking =>
        ({ is_talking := false }, [(quiet_frame, FrameDirection.downstream)])
    | _ => (s, [])
  (step.1, step.2 ++ [(frame, direction)])

/-- Run the stage over a whole input sequence, collecting the concatenated
output trace. -/
def processSeq (s : TalkingAnimation) :
    List (Frame × FrameDirection) → TalkingAnimation × List (Frame × FrameDirection)
  | [] => (s, [])
  | (f, d) :: rest =>
      let first := s.process_frame f d
      let next := processSeq first.1 rest
      (next.1, first.2 ++ next.2)

/-- Number of emissions of frame `f` in an output trace, ignoring direction. -/
def countFrame (f : Frame) (trace : List (Frame × FrameDirection)) : Nat :=
  (trace.map Prod.fst).count f

/-- Encode a speech-activity signal: `true` is `BotStartedSpeakingFrame`,
`false` is `BotStoppedSpeakingFrame`. -/
def signalFrame (b : Bool) : Frame :=
  if b then Frame.botStartedSpeaking else Frame.botStoppedSpeaking

/-- Count of maximal runs of value `v` in a Boolean sequence, given the
preceding value `prev` (a run begins at an occurrence of `v` not preceded by
`v`). -/
def runsAux (v : Bool) (prev : Bool) : List Bool → Nat
  | [] => 0
  | b :: rest => (if b = v ∧ prev ≠ v then 1 else 0) + runsAux v b rest

/-- Number of maximal runs of consecutive `BotStartedSpeaking` signals. -/
def startedRuns (l : List Bool) : Nat := runsAux true false l

/-- Number of maximal runs of consecutive `BotStoppedSpeaking` signals. -/
def stoppedRuns (l : List Bool) : Nat := runsAux false true l

/-- Whether a frame is one of the two speech-activity control signals. -/
def isSpeechSignal : Frame → Bool
  | Frame.botStartedSpeaking => true
  | Frame.botStoppedSpeaking => true
  | _ => false

/-- Whether a frame is an image emission (a static image or a sprite sequence). -/
def isImageFrame : Frame → Bool
  | Frame.outputImageRaw _ => true
  | Frame.sprite _ => true
  | _ => false

/-- `context_aggregator.user().get_context_frame()` (bot.py line 262): produces the
context frame that kicks off generation.  Its payload is opaque to `bot.py`. -/
def get_context_frame : Frame := Frame.contextSnapshot

/-- Externally visible actions performed by the decorated event handlers in
`main` (bot.py lines 257-275). -/
inductive BotAction where
  | rtviSetBotReady
  | taskQueueFrames (frames : List Frame)
  | taskQueueFrame (frame : Frame)
  | captureTranscript (participant_id : String)
  | logDebug (msg : String)
  | taskCancel
deriving DecidableEq, Repr

/-- `on_client_ready` (bot.py lines 257-262): `await rtvi.set_bot_ready()`, then
`await task.queue_frames([context_aggregator.user().get_context_frame()])`,
in program order. -/
def on_client_ready_actions : List BotAction :=
  [BotAction.rtviSetBotReady, BotAction.taskQueueFrames [get_context_frame]]

/-- `on_first_participant_joined` (bot.py lines 264-269): queue the static frame,
then capture the first participant's transcription. -/
def on_first_participant_joined_actions (participant_id : String) : List BotAction :=
  [BotAction.taskQueueFrame quiet_frame, BotAction.captureTranscript participant_id]

/-- `on_participant_left` (bot.py lines 271-275): log, then `await task.cancel()`. -/
def on_participant_left_actions (participant : String) (_reason : String) : List BotAction :=
  [BotAction.logDebug ("Participant left: " ++ participant), BotAction.taskCancel]

/-- Externally visible actions performed by a registered tool function. -/
inductive ToolAction where
  | llmPushFrame (f : Frame)
  | resultCallback (result : List (String × String))
deriving DecidableEq, Repr

/-- `fetch_weather_from_api` (bot.py lines 120-129): push a filler
`TTSSpeakFrame` through the llm stage, then invoke `result_callback` with the
fixed result dictionary.  The body is straight-line with no raise. -/
def fetch_weather_from_api (_function_name : String) (_tool_call_id : String)
    (_args : List (String × String)) : List ToolAction :=
  [ToolAction.llmPushFrame (Frame.ttsSpeak "Let me check on that."),
   ToolAction.resultCallback [("conditions", "nice"), ("temperature", "75")]]

/-- `llm.register_function("get_current_weather", fetch_weather_from_api)`
(bot.py line 187): the registry of tool functions, as built by `main`. -/
def registered_functions :
    List (String × (String → String → List (String × String) → List ToolAction)) :=
  [("get_current_weather", fetch_weather_from_api)]

/-- The `PipelineParams` fields set at the `PipelineTask` construction site
(bot.py lines 247-255). -/
structure PipelineParams where
  allow_interruptions : Bool
  enable_metrics : Bool
  enable_usage_metrics : Bool
deriving DecidableEq, Repr

/-- The parameters passed to `PipelineTask` in `main` (bot.py lines 249-253). -/
def task_params : PipelineParams :=
  { allow_interruptions := true, enable_metrics := true, enable_usage_metrics := true }

/-- State of assistant-turn generation inside the pipeline task. -/
inductive GenerationState where
  | idle
  | generating (turn : Nat)
deriving DecidableEq, Repr

/-- Modelled from the spec: the pipecat framework's handling of a new final user
transcript, which lives in the `pipecat` dependency and is absent from `src/`
(the repository only configures it through `PipelineParams`).  Per spec section 4.3,
"if a new final user transcript arrives while an assistant turn is still being
generated, the in-flight generation is cancelled and the new user turn takes
priority"; that behavior is gated on `allow_interruptions`.  Returns the new
generation state and whether an in-flight generation was cancelled. -/
def onFinalUserTranscript (params : PipelineParams) (st : GenerationState)
    (newTurn : Nat) : GenerationState × Bool :=
  match st with
  | GenerationState.generating _ =>
      if params.allow_interruptions then (GenerationState.generating newTurn, true)
      else (st, false)
  | GenerationState.idle => (GenerationState.generating newTurn, false)

lemma signalFrame_true : signalFrame true = Frame.botStartedSpeaking := rfl

lemma signalFrame_false : signalFrame false = Frame.botStoppedSpeaking := rfl

lemma countFrame_cons (f g : Frame) (d : FrameDirection) (t : List (Frame × FrameDirection)) :
    countFrame f ((g, d) :: t) = (if g = f then 1 else 0) + countFrame f t := by
  by_cases h : g = f <;> simp [countFrame, List.count_cons, h, Nat.add_comm]

lemma quiet_ne_talking : ¬(quiet_frame = talking_frame) := by decide

lemma started_ne_talking : ¬(Frame.botStartedSpeaking = talking_frame) := by decide

lemma stopped_ne_talking : ¬(Frame.botStoppedSpeaking = talking_frame) := by decide

lemma talking_ne_quiet : ¬(talking_frame = quiet_frame) := by decide

lemma started_ne_quiet : ¬(Frame.botStartedSpeaking = quiet_frame) := by decide

lemma stopped_ne_quiet : ¬(Frame.botStoppedSpeaking = quiet_frame) := by decide

lemma talking_count_runs (d : FrameDirection) (l : List Bool) (st : Bool) :
    countFrame talking_frame
      (processSeq ⟨st⟩ (l.map fun b => (signalFrame b, d))).2 = runsAux true st l := by
  induction l generalizing st with
  | nil => simp [processSeq, countFrame, runsAux]
  | cons b rest ih =>
      cases b <;> cases st <;>
        simp [List.map_cons, signalFrame_true, signalFrame_false, processSeq,
          TalkingAnimation.process_frame, countFrame_cons, runsAux, ih,
          quiet_ne_talking, started_ne_talking, stopped_ne_talking]

lemma quiet_count_stops (d : FrameDirection) (l : List Bool) (st : Bool) :
    countFrame quiet_frame
      (processSeq ⟨st⟩ (l.map fun b => (signalFrame b, d))).2 = l.count false := by
  induction l generalizing st with
  | nil => simp [processSeq, countFrame]
  | cons b rest ih =>
      cases b <;> cases st <;>
        simp [List.map_cons, signalFrame_true, signalFrame_false, processSeq,
          TalkingAnimation.process_frame, countFrame_cons, List.count_cons, ih,
          talking_ne_quiet, started_ne_quiet, stopped_ne_quiet, Nat.add_comm]

/-- Claim C1, counterexample: in the source, `BotStoppedSpeakingFrame` emits
`quiet_frame` unconditionally (there is no `_is_talking` guard on that branch),
so the input sequence `BotStoppedSpeaking, BotStoppedSpeaking` — a single
maximal run of stopped signals — produces two static-frame emissions, refuting
"exactly once per maximal run of consecutive BotStoppedSpeaking frames
(duplicate signals of the same kind are no-ops)". -/
theorem duplicate_stop_reemits_quiet :
    stoppedRuns [false, false] = 1 ∧
    countFrame quiet_frame
      (processSeq TalkingAnimation.init
        ([false, false].map fun b => (signalFrame b, FrameDirection.downstream))).2 = 2 := by
  decide

/-- Claim C1 (amended): for every sequence of `BotStartedSpeaking` /
`BotStoppedSpeaking` frames processed by a freshly constructed
`TalkingAnimation` stage, the talking sprite sequence is emitted exactly once
per maximal run of consecutive `BotStartedSpeaking` frames (duplicate
`BotStartedSpeaking` signals are no-ops), and the static quiet frame is
emitted exactly once per `BotStoppedSpeaking` frame (each `BotStoppedSpeaking`
re-emits the static frame, so duplicates are not no-ops). -/
theorem animation_emission_counts (d : FrameDirection) (l : List Bool) :
    countFrame talking_frame
        (processSeq TalkingAnimation.init (l.map fun b => (signalFrame b, d))).2
      = startedRuns l ∧
    countFrame quiet_frame
        (processSeq TalkingAnimation.init (l.map fun b => (signalFrame b, d))).2
      = l.count false := by
  exact ⟨talking_count_runs d l false, quiet_count_stops d l false⟩

/-- Claim C2: in `on_client_ready`, the readiness acknowledgment
`rtvi.set_bot_ready()` occurs strictly before the initial context frame is
queued into the pipeline task. -/
theorem ready_before_context_snapshot :
    BotAction.rtviSetBotReady ∈ on_client_ready_actions ∧
    BotAction.taskQueueFrames [get_context_frame] ∈ on_client_ready_actions ∧
    on_client_ready_actions.indexOf BotAction.rtviSetBotReady <
      on_client_ready_actions.indexOf (BotAction.taskQueueFrames [get_context_frame]) := by
  decide

/-- Claim C3: the `PipelineTask` is constructed with `allow_interruptions`
enabled, so (under the spec-modelled framework semantics
`onFinalUserTranscript`) a new final user transcript arriving while an
assistant turn is being generated cancels the in-flight generation and the new
user turn takes priority. -/
theorem interruption_cancels_inflight (t newTurn : Nat) :
    task_params.allow_interruptions = true ∧
    onFinalUserTranscript task_params (GenerationState.generating t) newTurn =
      (GenerationState.generating newTurn, true) :=
  ⟨rfl, rfl⟩

/-- Claim C4: `get_current_weather` is the only registered tool function, bound
to `fetch_weather_from_api`, and every invocation of `fetch_weather_from_api`
first pushes the filler `TTSSpeakFrame "Let me check on that."` through the llm
stage and only afterwards invokes `result_callback` with the fixed result; the
function is total (it never raises). -/
theorem weather_tool_filler_then_result (fn id : String) (args : List (String × String)) :
    registered_functions = [("get_current_weather", fetch_weather_from_api)] ∧
    fetch_weather_from_api fn id args =
      [ToolAction.llmPushFrame (Frame.ttsSpeak "Let me check on that."),
       ToolAction.resultCallback [("conditions", "nice"), ("temperature", "75")]] :=
  ⟨rfl, rfl⟩

/-- Claim C5 (Scenario B): a freshly constructed `TalkingAnimation` processing
exactly `BotStartedSpeaking, BotStartedSpeaking, BotStoppedSpeaking` emits
exactly one talking-sequence frame followed by exactly one static-image frame
(and no other image frames). -/
theorem scenario_b_one_talking_then_one_quiet :
    ((processSeq TalkingAnimation.init
        [(Frame.botStartedSpeaking, FrameDirection.downstream),
         (Frame.botStartedSpeaking, FrameDirection.downstream),
         (Frame.botStoppedSpeaking, FrameDirection.downstream)]).2.map Prod.fst).filter
      isImageFrame = [talking_frame, quiet_frame] := by
  decide

/-- Claim C6: the `on_participant_left` handler always invokes `task.cancel()`,
and neither of the other two registered handlers (`on_client_ready`,
`on_first_participant_joined`) ever does — in this program no other trigger
ends a running task, and no timeout is configured in `task_params`. -/
theorem participant_left_cancels_task (participant reason pid : String) :
    BotAction.taskCancel ∈ on_participant_left_actions participant reason ∧
    BotAction.taskCancel ∉ on_client_ready_actions ∧
    BotAction.taskCancel ∉ on_first_participant_joined_actions pid := by
  refine ⟨?_, by decide, ?_⟩
  · simp [on_participant_left_actions]
  · simp [on_first_participant_joined_actions]

/-- Claim C7: the `TalkingAnimation` stage never originates a
`BotStartedSpeaking` or `BotStoppedSpeaking` frame: any speech-activity signal
in its output is the received frame itself, forwarded in its incoming
direction. -/
theorem speech_signals_only_forwarded (s : TalkingAnimation) (f : Frame)
    (d : FrameDirection) (g : Frame) (e : FrameDirection)
    (hmem : (g, e) ∈ (s.process_frame f d).2) (hsig : isSpeechSignal g = true) :
    g = f ∧ e = d := by
  obtain ⟨st⟩ := s
  cases f <;> cases st <;>
    simp only [TalkingAnimation.process_frame, List.cons_append, List.nil_append,
      List.mem_cons, List.not_mem_nil, or_false, Prod.mk.injEq,
      if_true, if_false, Bool.false_eq_true, ite_false, ite_true] at hmem <;>
    first
      | exact hmem
      | (rcases hmem with ⟨hg, he⟩ | ⟨hg, he⟩
         · subst hg; simp [isSpeechSignal, talking_frame, quiet_frame] at hsig
         · exact ⟨hg, he⟩)

/-- Witness for C7 at a concrete input: the forwarded `BotStartedSpeaking` in
the output of a fresh stage is the received frame in the received direction. -/
theorem speech_signals_only_forwarded_witness :
    Frame.botStartedSpeaking = Frame.botStartedSpeaking ∧
      FrameDirection.downstream = FrameDirection.downstream :=
  speech_signals_only_forwarded TalkingAnimation.init Frame.botStartedSpeaking
    FrameDirection.downstream Frame.botStartedSpeaking FrameDirection.downstream
    (by decide) (by decide)

/-- Claim C8: a newly constructed `TalkingAnimation` starts with
`_is_talking = False`, so the first `BotStartedSpeaking` frame it processes
emits the talking sprite sequence (then forwards the signal). -/
theorem fresh_stage_idle_first_start_emits (d : FrameDirection) :
    TalkingAnimation.init.is_talking = false ∧
    TalkingAnimation.init.process_frame Frame.botStartedSpeaking d =
      ({ is_talking := true },
       [(talking_frame, FrameDirection.downstream), (Frame.botStartedSpeaking, d)]) :=
  ⟨rfl, rfl⟩

/-- Claim C9: the talking animation consists of the 25 loaded sprites followed
by the same 25 in reverse: 50 images forming a palindrome
(`images[i] = images[49 - i]`), with `quiet_frame` equal to the first image of
that sequence. -/
theorem sprite_palindrome :
    sprites.length = 50 ∧
    talking_frame = Frame.sprite sprites ∧
    (∀ i : Fin 50, sprites.getD i.val 0 = sprites.getD (49 - i.val) 0) ∧
    quiet_frame = Frame.outputImageRaw (sprites.getD 0 0) := by
  decide

/-- Claim C10: any frame that is neither `BotStartedSpeaking` nor
`BotStoppedSpeaking` leaves the `_is_talking` state unchanged and is forwarded
as the single emission, unmodified and in its incoming direction. -/
theorem non_signal_frames_forwarded (s : TalkingAnimation) (f : Frame)
    (d : FrameDirection) (h1 : f ≠ Frame.botStartedSpeaking)
    (h2 : f ≠ Frame.botStoppedSpeaking) :
    s.process_frame f d = (s, [(f, d)]) := by
  cases f <;> simp_all [TalkingAnimation.process_frame]

/-- Witness for C10 at a concrete input: an opaque frame is forwarded unchanged
by a fresh stage. -/
theorem non_signal_frames_forwarded_witness :
    TalkingAnimation.init.process_frame (Frame.other 0) FrameDirection.upstream =
      (TalkingAnimation.init, [(Frame.other 0, FrameDirection.upstream)]) :=
  non_signal_frames_forwarded TalkingAnimation.init (Frame.other 0)
    FrameDirection.upstream (by decide) (by decide)
